import Mathlib

/-!
Verification development for the notification-orchestrator service
(`src/app`): a shallow embedding of its event decoding (pydantic models in
`app/models/events.py`), the transform pipeline and publisher
(`app/services/notification_publisher.py`), the per-message consumer
callbacks (`app/services/rabbitmq_consumer.py`), and the per-event handlers
(`app/main.py`), together with theorems about their behaviour.
-/

/-- JSON values as produced by Python's json.loads: null, strings, integer
numbers, arrays and objects.  Objects are association lists with distinct
keys (Python dicts); floats and booleans do not occur in any payload the
schemas accept and are omitted. -/
inductive Json where
  | null : Json
  | str (s : String) : Json
  | num (n : Int) : Json
  | arr (elems : List Json) : Json
  | obj (fields : List (String × Json)) : Json

/-- Modelled from the spec: pydantic field validation for a required `str`
field (pydantic v2 lax mode accepts only JSON strings for `str`); library
code, not under src/. -/
def reqStr : Option Json → Except Unit String
  | some (Json.str s) => .ok s
  | _ => .error ()

/-- Modelled from the spec: pydantic field validation for an
`Optional[str] = None` field — absent or null yields None, a string is
taken as-is, any other JSON value is a validation error; library code, not
under src/. -/
def optStr : Option Json → Except Unit (Option String)
  | none => .ok none
  | some Json.null => .ok none
  | some (Json.str s) => .ok (some s)
  | _ => .error ()

/-- Accumulating decimal parser over a character list: fails on the first
non-digit character. -/
def parseNatCore : List Char → Nat → Option Nat
  | [], acc => some acc
  | c :: cs, acc =>
    if c.isDigit then parseNatCore cs (acc * 10 + (c.toNat - 48)) else none

/-- Modelled from the spec: the library's decimal-string-to-integer
coercion — an optional leading minus sign followed by at least one digit;
library code, not under src/. -/
def strToIntOpt (s : String) : Option Int :=
  match s.data with
  | [] => none
  | c :: cs =>
    if c = '-' then
      match cs with
      | [] => none
      | _ => (parseNatCore cs 0).map (fun n => -(n : Int))
    else
      (parseNatCore (c :: cs) 0).map (fun n => (n : Int))

/-- Modelled from the spec: pydantic v2 lax validation for a required
`int` field — accepts a JSON integer, or a string that parses as an
integer ("integer-coercible"), and rejects everything else; library code,
not under src/. -/
def reqIntLax : Option Json → Except Unit Int
  | some (Json.num n) => .ok n
  | some (Json.str s) =>
    match strToIntOpt s with
    | some n => .ok n
    | none => .error ()
  | _ => .error ()

/-- Modelled from the spec: pydantic validation for a required `datetime`
field ("timestamp must parse to a valid instant").  The library accepts an
ISO-8601 string or a numeric epoch; the parsed instant is kept abstract as
the raw JSON scalar, since no downstream code inspects its structure.
Library code, not under src/. -/
def reqDatetime : Option Json → Except Unit Json
  | some (Json.str s) => .ok (Json.str s)
  | some (Json.num n) => .ok (Json.num n)
  | _ => .error ()

/-- Field lookup for an aliased pydantic field with populate_by_name=True:
the external alias is consulted first, then the internal attribute name
(`class Config: populate_by_name = True` in app/models/events.py). -/
def getAliased (al nm : String) (o : List (String × Json)) : Option Json :=
  match o.lookup al with
  | some v => some v
  | none => o.lookup nm

/-- UsuarioCreadoEvent (app/models/events.py lines 12-21). -/
structure UsuarioCreadoEvent where
  usuario_id : String
  email : String
  nombre : String
  timestamp : Json
  activation_token : Option String
  base_url : Option String

/-- SesionIniciadaEvent (app/models/events.py lines 23-34); note
usuario_id is an int here, unlike the other three variants. -/
structure SesionIniciadaEvent where
  usuario_id : Int
  email : String
  nombre : String
  timestamp : Json
  ip_address : Option String
  user_agent : Option String
  device_info : Option String
  location : Option String

/-- PasswordResetSolicitadoEvent (app/models/events.py lines 36-44). -/
structure PasswordResetSolicitadoEvent where
  usuario_id : String
  email : String
  nombre : String
  token : String
  fecha_solicitud : Json

/-- PasswordActualizadoEvent (app/models/events.py lines 46-53). -/
structure PasswordActualizadoEvent where
  usuario_id : String
  email : String
  nombre : String
  fecha_actualizacion : Json

/-- Validation of UsuarioCreadoEvent(**data): required usuarioId (alias of
usuario_id), email, nombre, timestamp; optional activationToken, baseUrl.
Unknown extra keys are ignored (pydantic default). -/
def decodeUsuarioCreado (o : List (String × Json)) :
    Except Unit UsuarioCreadoEvent := do
  let uid ← reqStr (getAliased "usuarioId" "usuario_id" o)
  let email ← reqStr (o.lookup "email")
  let nombre ← reqStr (o.lookup "nombre")
  let ts ← reqDatetime (o.lookup "timestamp")
  let tok ← optStr (getAliased "activationToken" "activation_token" o)
  let burl ← optStr (getAliased "baseUrl" "base_url" o)
  .ok ⟨uid, email, nombre, ts, tok, burl⟩

/-- Validation of SesionIniciadaEvent(**data): usuarioId must be an int
(or integer-coercible string); four optional context fields. -/
def decodeSesionIniciada (o : List (String × Json)) :
    Except Unit SesionIniciadaEvent := do
  let uid ← reqIntLax (getAliased "usuarioId" "usuario_id" o)
  let email ← reqStr (o.lookup "email")
  let nombre ← reqStr (o.lookup "nombre")
  let ts ← reqDatetime (o.lookup "timestamp")
  let ip ← optStr (getAliased "ipAddress" "ip_address" o)
  let ua ← optStr (getAliased "userAgent" "user_agent" o)
  let dev ← optStr (getAliased "deviceInfo" "device_info" o)
  let loc ← optStr (o.lookup "location")
  .ok ⟨uid, email, nombre, ts, ip, ua, dev, loc⟩

/-- Validation of PasswordResetSolicitadoEvent(**data). -/
def decodePasswordResetSolicitado (o : List (String × Json)) :
    Except Unit PasswordResetSolicitadoEvent := do
  let uid ← reqStr (getAliased "usuarioId" "usuario_id" o)
  let email ← reqStr (o.lookup "email")
  let nombre ← reqStr (o.lookup "nombre")
  let tok ← reqStr (o.lookup "token")
  let fs ← reqDatetime (getAliased "fechaSolicitud" "fecha_solicitud" o)
  .ok ⟨uid, email, nombre, tok, fs⟩

/-- Validation of PasswordActualizadoEvent(**data). -/
def decodePasswordActualizado (o : List (String × Json)) :
    Except Unit PasswordActualizadoEvent := do
  let uid ← reqStr (getAliased "usuarioId" "usuario_id" o)
  let email ← reqStr (o.lookup "email")
  let nombre ← reqStr (o.lookup "nombre")
  let fa ← reqDatetime (getAliased "fechaActualizacion" "fecha_actualizacion" o)
  .ok ⟨uid, email, nombre, fa⟩

/-- Sum of the four domain-event variants consumed from the four input
queues. -/
inductive DomainEvent where
  | userCreated (e : UsuarioCreadoEvent) : DomainEvent
  | sessionStarted (e : SesionIniciadaEvent) : DomainEvent
  | passwordResetRequested (e : PasswordResetSolicitadoEvent) : DomainEvent
  | passwordUpdated (e : PasswordActualizadoEvent) : DomainEvent

/-- The four input queues of the consumer (settings.usuarios_queue,
sesiones_queue, password_reset_queue, password_updated_queue). -/
inductive Queue where
  | usuarios : Queue
  | sesiones : Queue
  | password_reset : Queue
  | password_updated : Queue
deriving DecidableEq

/-- The `json.loads` step plus the `Event(**data)` expansion in each
on_message callback: a body that is not valid JSON is modelled as `none`,
and a JSON value that is not an object makes the keyword expansion fail. -/
def decodeBody (dec : List (String × Json) → Except Unit α) :
    Option Json → Except Unit α
  | some (Json.obj o) => dec o
  | _ => .error ()

/-- The decode stage of the pipeline: the queue a message arrived on
selects which pydantic model validates it — consume_usuarios parses
UsuarioCreadoEvent, consume_sesiones parses SesionIniciadaEvent,
consume_password_reset parses PasswordResetSolicitadoEvent,
consume_password_updated parses PasswordActualizadoEvent
(app/services/rabbitmq_consumer.py lines 101-218). -/
def decodeForQueue : Queue → Option Json → Except Unit DomainEvent
  | .usuarios, b => (decodeBody decodeUsuarioCreado b).map .userCreated
  | .sesiones, b => (decodeBody decodeSesionIniciada b).map .sessionStarted
  | .password_reset, b =>
    (decodeBody decodePasswordResetSolicitado b).map .passwordResetRequested
  | .password_updated, b =>
    (decodeBody decodePasswordActualizado b).map .passwordUpdated

/-- The variant each queue is bound to, as a tag on decoded events. -/
def eventVariant : DomainEvent → Queue
  | .userCreated _ => .usuarios
  | .sessionStarted _ => .sesiones
  | .passwordResetRequested _ => .password_reset
  | .passwordUpdated _ => .password_updated

/-- NotificationType (app/models/events.py lines 6-10); constructor names
are the enum's string values. -/
inductive NotificationType where
  | user_welcome : NotificationType
  | login_notification : NotificationType
  | password_reset : NotificationType
  | password_updated : NotificationType
deriving DecidableEq

/-- NotificationEvent (app/models/events.py lines 55-64): the unified
output shape; additional_data is an optional string-keyed map, modelled as
an insertion-ordered association list like a Python dict. -/
structure NotificationEvent where
  type : NotificationType
  email : String
  user_name : String
  timestamp : Json
  additional_data : Option (List (String × Json))

/-- Python truthiness of an Optional[str]: None and the empty string are
falsy (the `if event.activation_token` tests in notification_publisher.py). -/
def strTruthy : Option String → Bool
  | none => false
  | some s => !s.isEmpty

/-- The `x if x else default` idiom on an Optional[str]
(create_login_notification's placeholder defaults). -/
def orPlaceholder (v : Option String) (d : String) : String :=
  match v with
  | none => d
  | some s => if s.isEmpty then d else s

/-- NotificationPublisher.create_user_welcome_notification
(app/services/notification_publisher.py lines 114-143): builds
additionalData from the truthy optional fields only, passes None instead
of an empty dict, and stamps the current wall-clock time `now` — not the
event's own timestamp — as the notification timestamp. -/
def create_user_welcome_notification (now : Json) (event : UsuarioCreadoEvent) :
    NotificationEvent :=
  let additional_data : List (String × Json) :=
    (match event.activation_token with
     | some s => if s.isEmpty then [] else [("activationToken", Json.str s)]
     | none => []) ++
    (match event.base_url with
     | some s => if s.isEmpty then [] else [("baseUrl", Json.str s)]
     | none => [])
  { type := NotificationType.user_welcome
    email := event.email
    user_name := event.nombre
    timestamp := now
    additional_data := if additional_data.isEmpty then none else some additional_data }

/-- NotificationPublisher.create_login_notification
(app/services/notification_publisher.py lines 145-171): all four context
keys are always present, falsy fields replaced by the literal placeholder
strings of the source. -/
def create_login_notification (event : SesionIniciadaEvent) : NotificationEvent :=
  { type := NotificationType.login_notification
    email := event.email
    user_name := event.nombre
    timestamp := event.timestamp
    additional_data := some
      [("ipAddress", Json.str (orPlaceholder event.ip_address "Desconocida")),
       ("userAgent", Json.str (orPlaceholder event.user_agent "Desconocido")),
       ("deviceInfo", Json.str (orPlaceholder event.device_info "Desconocido")),
       ("location", Json.str (orPlaceholder event.location "Desconocida"))] }

/-- NotificationPublisher.create_password_reset_notification
(app/services/notification_publisher.py lines 173-192). -/
def create_password_reset_notification (event : PasswordResetSolicitadoEvent) :
    NotificationEvent :=
  { type := NotificationType.password_reset
    email := event.email
    user_name := event.nombre
    timestamp := event.fecha_solicitud
    additional_data := some [("resetToken", Json.str event.token)] }

/-- NotificationPublisher.create_password_updated_notification
(app/services/notification_publisher.py lines 194-213). -/
def create_password_updated_notification (event : PasswordActualizadoEvent) :
    NotificationEvent :=
  { type := NotificationType.password_updated
    email := event.email
    user_name := event.nombre
    timestamp := event.fecha_actualizacion
    additional_data := none }

/-- The transform stage: dispatch on the decoded variant to the create_*
method the corresponding handler in app/main.py invokes.  `now` is the
wall-clock instant at transform time, an input only the UserCreated branch
uses (datetime.now() in create_user_welcome_notification). -/
def transform (now : Json) : DomainEvent → NotificationEvent
  | .userCreated e => create_user_welcome_notification now e
  | .sessionStarted e => create_login_notification e
  | .passwordResetRequested e => create_password_reset_notification e
  | .passwordUpdated e => create_password_updated_notification e

/-- Lookup of a key in a NotificationEvent's optional payload; absent
payload means every key is absent. -/
def payloadLookup (n : NotificationEvent) (k : String) : Option Json :=
  match n.additional_data with
  | none => none
  | some l => l.lookup k

/-- The acknowledgement a consumer callback sends for one delivery tag:
basic_ack or basic_nack with its requeue flag. -/
inductive AckAction where
  | ack (deliveryTag : Nat) : AckAction
  | nack (deliveryTag : Nat) (requeue : Bool) : AckAction
deriving DecidableEq

/-- The on_message callback shape shared by all four consume_* methods
(app/services/rabbitmq_consumer.py lines 108-127, 143-156, 171-184,
199-212): decode the body, run the registered callback, ack on success;
any exception at any stage is caught and answered with a single
basic_nack(requeue=False) for that delivery tag. -/
def on_message (decode : Option Json → Except Unit α)
    (callback : α → Except Unit Unit) (deliveryTag : Nat)
    (body : Option Json) : AckAction :=
  match decode body with
  | .error _ => .nack deliveryTag false
  | .ok e =>
    match callback e with
    | .ok _ => .ack deliveryTag
    | .error _ => .nack deliveryTag false

/-- handle_usuario_creado (app/main.py lines 22-38): transform then
publish, with a catch-all except that only logs — the handler returns
normally even when publish_notification raises. -/
def handle_usuario_creado (publish : NotificationEvent → Except Unit Unit)
    (now : Json) (event : UsuarioCreadoEvent) : Except Unit Unit :=
  match publish (create_user_welcome_notification now event) with
  | .ok _ => .ok ()
  | .error _ => .ok ()

/-- handle_sesion_iniciada (app/main.py lines 40-52). -/
def handle_sesion_iniciada (publish : NotificationEvent → Except Unit Unit)
    (event : SesionIniciadaEvent) : Except Unit Unit :=
  match publish (create_login_notification event) with
  | .ok _ => .ok ()
  | .error _ => .ok ()

/-- handle_password_reset (app/main.py lines 54-66). -/
def handle_password_reset (publish : NotificationEvent → Except Unit Unit)
    (event : PasswordResetSolicitadoEvent) : Except Unit Unit :=
  match publish (create_password_reset_notification event) with
  | .ok _ => .ok ()
  | .error _ => .ok ()

/-- handle_password_updated (app/main.py lines 68-80). -/
def handle_password_updated (publish : NotificationEvent → Except Unit Unit)
    (event : PasswordActualizadoEvent) : Except Unit Unit :=
  match publish (create_password_updated_notification event) with
  | .ok _ => .ok ()
  | .error _ => .ok ()

/-- End-to-end processing of one inbound message on a given queue, as wired
by start_rabbitmq_consumers (app/main.py lines 82-105): each queue's
on_message decodes with its variant and invokes the matching handler.
`publish` is the publisher's publish_notification, which may raise
(Except.error); `now` is the wall clock at processing time. -/
def processMessage (publish : NotificationEvent → Except Unit Unit)
    (now : Json) (q : Queue) (deliveryTag : Nat) (body : Option Json) :
    AckAction :=
  match q with
  | .usuarios =>
    on_message (decodeBody decodeUsuarioCreado)
      (handle_usuario_creado publish now) deliveryTag body
  | .sesiones =>
    on_message (decodeBody decodeSesionIniciada)
      (handle_sesion_iniciada publish) deliveryTag body
  | .password_reset =>
    on_message (decodeBody decodePasswordResetSolicitado)
      (handle_password_reset publish) deliveryTag body
  | .password_updated =>
    on_message (decodeBody decodePasswordActualizado)
      (handle_password_updated publish) deliveryTag body

/-- MAX_RETRIES in both setup_connection methods
(rabbitmq_consumer.py line 30, notification_publisher.py line 24). -/
def MAX_RETRIES : Nat := 20

/-- WAIT_SECONDS in both setup_connection methods
(rabbitmq_consumer.py line 31, notification_publisher.py line 25). -/
def WAIT_SECONDS : Nat := 3

/-- Outcome of a setup_connection call: how many attempts were made, the
total seconds slept between attempts, and whether a connection was
established (connected = false models the final re-raise that aborts the
process). -/
structure ConnectResult where
  attemptsMade : Nat
  slept : Nat
  connected : Bool
deriving DecidableEq

/-- The retry loop body shared verbatim by RabbitMQConsumer.setup_connection
(rabbitmq_consumer.py lines 28-73) and
NotificationPublisher.setup_connection (notification_publisher.py lines
22-78): while attempt <= MAX_RETRIES, try to connect (the attempt's
success is abstracted as `outcomes attempt`); on success return, on
failure re-raise if attempt = MAX_RETRIES, otherwise sleep WAIT_SECONDS
and increment attempt.  `fuel` is the loop-guard bound
MAX_RETRIES + 1 - attempt, so the fuel-0 branch is unreachable from the
entry point. -/
def connectLoop (outcomes : Nat → Bool) :
    Nat → Nat → Nat → ConnectResult
  | 0, attempt, slept => ⟨attempt - 1, slept, false⟩
  | fuel + 1, attempt, slept =>
    if outcomes attempt then ⟨attempt, slept, true⟩
    else if attempt = MAX_RETRIES then ⟨attempt, slept, false⟩
    else connectLoop outcomes fuel (attempt + 1) (slept + WAIT_SECONDS)

/-- setup_connection in both the consumer and the publisher: run the retry
loop from attempt 1 with nothing slept yet. -/
def setup_connection (outcomes : Nat → Bool) : ConnectResult :=
  connectLoop outcomes MAX_RETRIES 1 0

/-- A concrete inbound payload carrying every required field of every
variant (the decoders ignore the keys they do not know), parameterised by
the usuarioId value. -/
def basePayload (uid : Json) : List (String × Json) :=
  [("usuarioId", uid), ("email", Json.str "a@b.com"), ("nombre", Json.str "Ana"),
   ("timestamp", Json.str "2024-01-01T00:00:00Z"), ("token", Json.str "XYZ"),
   ("fechaSolicitud", Json.str "2024-01-01T00:00:00Z"),
   ("fechaActualizacion", Json.str "2024-01-01T00:00:00Z")]

/-- The UsuarioCreadoEvent that basePayload with usuarioId "u1" decodes to. -/
def sampleUsuarioEvent : UsuarioCreadoEvent :=
  ⟨"u1", "a@b.com", "Ana", Json.str "2024-01-01T00:00:00Z", none, none⟩

/-- A SesionIniciadaEvent with all four optional context fields absent. -/
def sampleSesionEvent : SesionIniciadaEvent :=
  ⟨1, "a@b.com", "Ana", Json.str "2024-01-01T00:00:00Z", none, none, none, none⟩

/-- The keys the UsuarioCreadoEvent validator consults (aliases and
internal names). -/
def usuarioKeys : List String :=
  ["usuarioId", "usuario_id", "email", "nombre", "timestamp",
   "activationToken", "activation_token", "baseUrl", "base_url"]

/-- The keys the SesionIniciadaEvent validator consults. -/
def sesionKeys : List String :=
  ["usuarioId", "usuario_id", "email", "nombre", "timestamp",
   "ipAddress", "ip_address", "userAgent", "user_agent",
   "deviceInfo", "device_info", "location"]

/-- The keys the PasswordResetSolicitadoEvent validator consults. -/
def passwordResetKeys : List String :=
  ["usuarioId", "usuario_id", "email", "nombre", "token",
   "fechaSolicitud", "fecha_solicitud"]

/-- The keys the PasswordActualizadoEvent validator consults. -/
def passwordUpdatedKeys : List String :=
  ["usuarioId", "usuario_id", "email", "nombre",
   "fechaActualizacion", "fecha_actualizacion"]

theorem lookup_cons_self (k : String) (v : Json) (o : List (String × Json)) :
    ((k, v) :: o).lookup k = some v := by
  simp [List.lookup]

theorem lookup_cons_ne {k k' : String} (h : k ≠ k') (v : Json)
    (o : List (String × Json)) : ((k', v) :: o).lookup k = o.lookup k := by
  simp [List.lookup, beq_eq_false_iff_ne.mpr h]

/-- Claim C3: for each of the four domain-event variants, decoding a
payload from its queue and then transforming it yields a NotificationEvent
whose kind is exactly the one in the mapping table: UserCreated to
user_welcome, SessionStarted to login_notification, PasswordResetRequested
to password_reset, PasswordUpdated to password_updated. -/
theorem decode_transform_kind_mapping (now : Json) (q : Queue)
    (body : Option Json) (e : DomainEvent)
    (h : decodeForQueue q body = .ok e) :
    (transform now e).type =
      (match q with
       | .usuarios => NotificationType.user_welcome
       | .sesiones => NotificationType.login_notification
       | .password_reset => NotificationType.password_reset
       | .password_updated => NotificationType.password_updated) := by
  cases q <;> simp only [decodeForQueue] at h
  · cases hd : decodeBody decodeUsuarioCreado body <;> rw [hd] at h <;>
      simp [Except.map] at h
    subst h
    rfl
  · cases hd : decodeBody decodeSesionIniciada body <;> rw [hd] at h <;>
      simp [Except.map] at h
    subst h
    rfl
  · cases hd : decodeBody decodePasswordResetSolicitado body <;> rw [hd] at h <;>
      simp [Except.map] at h
    subst h
    rfl
  · cases hd : decodeBody decodePasswordActualizado body <;> rw [hd] at h <;>
      simp [Except.map] at h
    subst h
    rfl

/-- Witness for C3: the four minimally valid payloads of the testable
properties decode on their queues and transform to the four mapped kinds. -/
theorem decode_transform_kind_mapping_witness :
    (transform Json.null (DomainEvent.userCreated sampleUsuarioEvent)).type =
      NotificationType.user_welcome ∧
    (transform Json.null (DomainEvent.sessionStarted sampleSesionEvent)).type =
      NotificationType.login_notification ∧
    (transform Json.null (DomainEvent.passwordResetRequested
      ⟨"u1", "a@b.com", "Ana", "XYZ", Json.str "2024-01-01T00:00:00Z"⟩)).type =
      NotificationType.password_reset ∧
    (transform Json.null (DomainEvent.passwordUpdated
      ⟨"u1", "a@b.com", "Ana", Json.str "2024-01-01T00:00:00Z"⟩)).type =
      NotificationType.password_updated :=
  ⟨decode_transform_kind_mapping Json.null Queue.usuarios
      (some (Json.obj (basePayload (Json.str "u1")))) _ rfl,
   decode_transform_kind_mapping Json.null Queue.sesiones
      (some (Json.obj (basePayload (Json.num 1)))) _ rfl,
   decode_transform_kind_mapping Json.null Queue.password_reset
      (some (Json.obj (basePayload (Json.str "u1")))) _ rfl,
   decode_transform_kind_mapping Json.null Queue.password_updated
      (some (Json.obj (basePayload (Json.str "u1")))) _ rfl⟩

/-- Claim C7: the decoder selects the target variant strictly from the
identity of the queue the message arrived on: whatever the raw payload,
a successful decode on a queue yields the variant bound to that queue, so
the same bytes delivered on two different queues are decoded against two
different variants. -/
theorem decode_variant_from_queue_identity (q : Queue) (body : Option Json)
    (e : DomainEvent) (h : decodeForQueue q body = .ok e) :
    eventVariant e = q := by
  cases q <;> simp only [decodeForQueue] at h
  · cases hd : decodeBody decodeUsuarioCreado body <;> rw [hd] at h <;>
      simp [Except.map] at h
    subst h
    rfl
  · cases hd : decodeBody decodeSesionIniciada body <;> rw [hd] at h <;>
      simp [Except.map] at h
    subst h
    rfl
  · cases hd : decodeBody decodePasswordResetSolicitado body <;> rw [hd] at h <;>
      simp [Except.map] at h
    subst h
    rfl
  · cases hd : decodeBody decodePasswordActualizado body <;> rw [hd] at h <;>
      simp [Except.map] at h
    subst h
    rfl

/-- Witness for C7: the same concrete payload delivered on the usuarios
queue and on the password_updated queue decodes to the variants bound to
those two queues. -/
theorem decode_variant_from_queue_identity_witness :
    eventVariant (DomainEvent.userCreated sampleUsuarioEvent) = Queue.usuarios ∧
    eventVariant (DomainEvent.passwordUpdated
      ⟨"u1", "a@b.com", "Ana", Json.str "2024-01-01T00:00:00Z"⟩) =
      Queue.password_updated :=
  ⟨decode_variant_from_queue_identity Queue.usuarios
      (some (Json.obj (basePayload (Json.str "u1")))) _ rfl,
   decode_variant_from_queue_identity Queue.password_updated
      (some (Json.obj (basePayload (Json.str "u1")))) _ rfl⟩

/-- Claim C5: an inbound message whose raw bytes fail JSON parsing (body
decoded as none), or whose decode otherwise fails (missing required field,
wrong type, non-object JSON), is answered with exactly one
basic_nack(requeue=False) for that message's delivery tag, on every queue;
the callback is total, so the consumer does not crash and keeps consuming. -/
theorem decode_failure_nacked_without_requeue
    (publish : NotificationEvent → Except Unit Unit) (now : Json) (q : Queue)
    (tag : Nat) (body : Option Json) :
    decodeForQueue q none = Except.error () ∧
    (decodeForQueue q body = .error () →
      processMessage publish now q tag body = .nack tag false) := by
  constructor
  · cases q <;> rfl
  · intro h
    cases q <;> simp only [decodeForQueue] at h <;>
      simp only [processMessage, on_message]
    · cases hd : decodeBody decodeUsuarioCreado body <;> rw [hd] at h <;>
        simp [Except.map] at h ⊢
    · cases hd : decodeBody decodeSesionIniciada body <;> rw [hd] at h <;>
        simp [Except.map] at h ⊢
    · cases hd : decodeBody decodePasswordResetSolicitado body <;> rw [hd] at h <;>
        simp [Except.map] at h ⊢
    · cases hd : decodeBody decodePasswordActualizado body <;> rw [hd] at h <;>
        simp [Except.map] at h ⊢

/-- Witness for C5: a body that is not valid JSON on the usuarios queue,
and a JSON object missing the required email field on the sesiones queue,
are both nacked without requeue. -/
theorem decode_failure_nacked_without_requeue_witness :
    decodeForQueue Queue.usuarios none = Except.error () ∧
    processMessage (fun _ => Except.ok ()) Json.null Queue.sesiones 5
      (some (Json.obj [("usuarioId", Json.num 1)])) = AckAction.nack 5 false :=
  ⟨(decode_failure_nacked_without_requeue (fun _ => Except.ok ()) Json.null
      Queue.usuarios 5 none).1,
   (decode_failure_nacked_without_requeue (fun _ => Except.ok ()) Json.null
      Queue.sesiones 5 (some (Json.obj [("usuarioId", Json.num 1)]))).2 rfl⟩

/-- Counterexample for C1: a message that decodes successfully on the
usuarios queue but whose publish_notification raises is positively
acknowledged, not negatively acknowledged: the handler in app/main.py
catches the publish error and returns normally, so on_message acks. -/
theorem publish_failure_is_acked_counterexample :
    decodeForQueue Queue.usuarios (some (Json.obj (basePayload (Json.str "u1")))) =
      Except.ok (DomainEvent.userCreated sampleUsuarioEvent) ∧
    processMessage (fun _ => Except.error ()) Json.null Queue.usuarios 7
      (some (Json.obj (basePayload (Json.str "u1")))) = AckAction.ack 7 ∧
    AckAction.ack 7 ≠ AckAction.nack 7 false :=
  ⟨rfl, rfl, by decide⟩

/-- Claim C1 as amended: for every inbound message that decodes
successfully, the message is positively acknowledged regardless of whether
the downstream publish succeeds or raises — each handler in app/main.py
wraps transform-and-publish in a catch-all except that only logs, so the
consumer's callback never sees a publish failure and always acks; nack
without requeue happens only when decode fails. -/
theorem decode_success_always_acked
    (publish : NotificationEvent → Except Unit Unit) (now : Json) (q : Queue)
    (tag : Nat) (body : Option Json) (e : DomainEvent)
    (h : decodeForQueue q body = .ok e) :
    processMessage publish now q tag body = .ack tag := by
  cases q <;> simp only [decodeForQueue] at h <;>
    simp only [processMessage, on_message]
  · cases hd : decodeBody decodeUsuarioCreado body with
    | error u => rw [hd] at h; simp [Except.map] at h
    | ok u =>
      cases hp : publish (create_user_welcome_notification now u) <;>
        simp [hd, handle_usuario_creado, hp]
  · cases hd : decodeBody decodeSesionIniciada body with
    | error u => rw [hd] at h; simp [Except.map] at h
    | ok u =>
      cases hp : publish (create_login_notification u) <;>
        simp [hd, handle_sesion_iniciada, hp]
  · cases hd : decodeBody decodePasswordResetSolicitado body with
    | error u => rw [hd] at h; simp [Except.map] at h
    | ok u =>
      cases hp : publish (create_password_reset_notification u) <;>
        simp [hd, handle_password_reset, hp]
  · cases hd : decodeBody decodePasswordActualizado body with
    | error u => rw [hd] at h; simp [Except.map] at h
    | ok u =>
      cases hp : publish (create_password_updated_notification u) <;>
        simp [hd, handle_password_updated, hp]

/-- Witness for the amended C1: a concrete decodable message on the
usuarios queue is acked both under a failing and under a succeeding
publisher. -/
theorem decode_success_always_acked_witness :
    processMessage (fun _ => Except.error ()) Json.null Queue.usuarios 7
      (some (Json.obj (basePayload (Json.str "u1")))) = AckAction.ack 7 ∧
    processMessage (fun _ => Except.ok ()) Json.null Queue.usuarios 7
      (some (Json.obj (basePayload (Json.str "u1")))) = AckAction.ack 7 :=
  ⟨decode_success_always_acked (fun _ => Except.error ()) Json.null
      Queue.usuarios 7 (some (Json.obj (basePayload (Json.str "u1"))))
      (DomainEvent.userCreated sampleUsuarioEvent) rfl,
   decode_success_always_acked (fun _ => Except.ok ()) Json.null
      Queue.usuarios 7 (some (Json.obj (basePayload (Json.str "u1"))))
      (DomainEvent.userCreated sampleUsuarioEvent) rfl⟩

/-- Counterexample for C2: for a SessionStarted event with all four
optional fields absent, the payload value at ipAddress is the literal
string "Desconocida", not the literal string "unknown". -/
theorem login_placeholder_not_unknown_counterexample :
    payloadLookup (create_login_notification sampleSesionEvent) "ipAddress" =
      some (Json.str "Desconocida") ∧
    some (Json.str "Desconocida") ≠ some (Json.str "unknown") := by
  refine ⟨rfl, ?_⟩
  intro h
  simp at h

/-- Claim C2 as amended: for every SessionStarted event in which all four
optional fields are absent, the transform produces a payload map that
contains all four keys, each bound to a literal placeholder string —
"Desconocida" for ipAddress and location, "Desconocido" for userAgent and
deviceInfo — never null and never a missing key. -/
theorem login_all_absent_payload_placeholders (e : SesionIniciadaEvent)
    (h1 : e.ip_address = none) (h2 : e.user_agent = none)
    (h3 : e.device_info = none) (h4 : e.location = none) :
    (create_login_notification e).additional_data =
      some [("ipAddress", Json.str "Desconocida"),
            ("userAgent", Json.str "Desconocido"),
            ("deviceInfo", Json.str "Desconocido"),
            ("location", Json.str "Desconocida")] := by
  simp [create_login_notification, orPlaceholder, h1, h2, h3, h4]

/-- Witness for the amended C2: the concrete all-absent SessionStarted
event produces the four-placeholder payload. -/
theorem login_all_absent_payload_placeholders_witness :
    (create_login_notification sampleSesionEvent).additional_data =
      some [("ipAddress", Json.str "Desconocida"),
            ("userAgent", Json.str "Desconocido"),
            ("deviceInfo", Json.str "Desconocido"),
            ("location", Json.str "Desconocida")] :=
  login_all_absent_payload_placeholders sampleSesionEvent rfl rfl rfl rfl

/-- Helper for C4: keys other than activationToken and baseUrl never occur
in a user-welcome notification's payload. -/
theorem uw_payloadLookup_other (now : Json) (e : UsuarioCreadoEvent) (k : String)
    (hk1 : k ≠ "activationToken") (hk2 : k ≠ "baseUrl") :
    payloadLookup (create_user_welcome_notification now e) k = none := by
  have hb1 : (k == "activationToken") = false := beq_eq_false_iff_ne.mpr hk1
  have hb2 : (k == "baseUrl") = false := beq_eq_false_iff_ne.mpr hk2
  rcases hA : e.activation_token with _ | s <;> rcases hB : e.base_url with _ | t <;>
    simp [create_user_welcome_notification, payloadLookup, List.lookup, hA, hB,
      hb1, hb2] <;>
    split_ifs <;> simp [List.lookup, hb1, hb2]

/-- Claim C4: for every UserCreated event in which both activationToken
and baseUrl are absent or empty (falsy), the transform's additionalData is
entirely absent (None), not an empty map; a field with a non-empty value
appears in the payload under its key, a falsy field contributes no key,
and no key other than those two ever appears. -/
theorem user_welcome_payload_only_truthy_keys (now : Json) (e : UsuarioCreadoEvent) :
    (strTruthy e.activation_token = false → strTruthy e.base_url = false →
      (create_user_welcome_notification now e).additional_data = none) ∧
    (∀ s, e.activation_token = some s → s.isEmpty = false →
      payloadLookup (create_user_welcome_notification now e) "activationToken" =
        some (Json.str s)) ∧
    (∀ s, e.base_url = some s → s.isEmpty = false →
      payloadLookup (create_user_welcome_notification now e) "baseUrl" =
        some (Json.str s)) ∧
    (strTruthy e.activation_token = false →
      payloadLookup (create_user_welcome_notification now e) "activationToken" = none) ∧
    (strTruthy e.base_url = false →
      payloadLookup (create_user_welcome_notification now e) "baseUrl" = none) ∧
    (∀ k, k ≠ "activationToken" → k ≠ "baseUrl" →
      payloadLookup (create_user_welcome_notification now e) k = none) := by
  refine ⟨?_, ?_, ?_, ?_, ?_, fun k hk1 hk2 => uw_payloadLookup_other now e k hk1 hk2⟩ <;>
  · rcases hA : e.activation_token with _ | s <;> rcases hB : e.base_url with _ | t
    all_goals try cases hs : s.isEmpty
    all_goals try cases ht : t.isEmpty
    all_goals
      simp_all [create_user_welcome_notification, payloadLookup, strTruthy,
        List.lookup]

/-- Witness for C4: with both optional fields absent the payload is None;
with a non-empty activation token, the token appears under its key, the
absent baseUrl key is missing, and an unrelated key is missing. -/
theorem user_welcome_payload_only_truthy_keys_witness :
    (create_user_welcome_notification Json.null sampleUsuarioEvent).additional_data =
      none ∧
    payloadLookup (create_user_welcome_notification Json.null
      ⟨"u1", "a@b.com", "Ana", Json.null, some "tok123", none⟩) "activationToken" =
      some (Json.str "tok123") ∧
    payloadLookup (create_user_welcome_notification Json.null
      ⟨"u1", "a@b.com", "Ana", Json.null, some "tok123", none⟩) "baseUrl" = none ∧
    payloadLookup (create_user_welcome_notification Json.null
      ⟨"u1", "a@b.com", "Ana", Json.null, some "tok123", none⟩) "email" = none :=
  ⟨(user_welcome_payload_only_truthy_keys Json.null sampleUsuarioEvent).1 rfl rfl,
   (user_welcome_payload_only_truthy_keys Json.null
      ⟨"u1", "a@b.com", "Ana", Json.null, some "tok123", none⟩).2.1 "tok123" rfl rfl,
   (user_welcome_payload_only_truthy_keys Json.null
      ⟨"u1", "a@b.com", "Ana", Json.null, some "tok123", none⟩).2.2.2.2.1 rfl,
   (user_welcome_payload_only_truthy_keys Json.null
      ⟨"u1", "a@b.com", "Ana", Json.null, some "tok123", none⟩).2.2.2.2.2 "email"
      (by decide) (by decide)⟩

/-- Counterexample for C9: the transform's result is not determined by the
input event alone — transforming the same decoded UserCreated event at two
different wall-clock instants yields different NotificationEvents, because
create_user_welcome_notification stamps datetime.now() as the timestamp. -/
theorem transform_depends_on_clock_counterexample :
    transform (Json.str "2024-01-01T00:00:00Z")
      (DomainEvent.userCreated sampleUsuarioEvent) ≠
    transform (Json.str "2025-06-15T12:00:00Z")
      (DomainEvent.userCreated sampleUsuarioEvent) := by
  intro h
  have h2 := congrArg NotificationEvent.timestamp h
  simp [transform, create_user_welcome_notification, sampleUsuarioEvent] at h2

/-- Claim C9 as amended: transform is total over decoded domain events (it
is a function into NotificationEvent with no failure case), and for the
SessionStarted, PasswordResetRequested and PasswordUpdated variants its
result is determined by the input event alone; for UserCreated the result
additionally depends on the wall clock at transform time, but only in the
timestamp field, which is exactly the clock's value — all other fields are
determined by the event. -/
theorem transform_total_and_deterministic (now now' : Json) (ev : DomainEvent) :
    (eventVariant ev ≠ Queue.usuarios → transform now ev = transform now' ev) ∧
    (transform now ev).type = (transform now' ev).type ∧
    (transform now ev).email = (transform now' ev).email ∧
    (transform now ev).user_name = (transform now' ev).user_name ∧
    (transform now ev).additional_data = (transform now' ev).additional_data ∧
    (eventVariant ev = Queue.usuarios → (transform now ev).timestamp = now) := by
  cases ev <;>
    simp [transform, eventVariant, create_user_welcome_notification,
      create_login_notification, create_password_reset_notification,
      create_password_updated_notification]

/-- Witness for the amended C9: a PasswordUpdated event transforms
identically under two different clocks, and a UserCreated event's
timestamp is the transform-time clock. -/
theorem transform_total_and_deterministic_witness :
    transform (Json.str "2024-01-01T00:00:00Z")
      (DomainEvent.passwordUpdated
        ⟨"u1", "a@b.com", "Ana", Json.str "2024-01-01T00:00:00Z"⟩) =
    transform (Json.str "2025-06-15T12:00:00Z")
      (DomainEvent.passwordUpdated
        ⟨"u1", "a@b.com", "Ana", Json.str "2024-01-01T00:00:00Z"⟩) ∧
    (transform (Json.str "2024-01-01T00:00:00Z")
      (DomainEvent.userCreated sampleUsuarioEvent)).timestamp =
      Json.str "2024-01-01T00:00:00Z" :=
  ⟨(transform_total_and_deterministic (Json.str "2024-01-01T00:00:00Z")
      (Json.str "2025-06-15T12:00:00Z")
      (DomainEvent.passwordUpdated
        ⟨"u1", "a@b.com", "Ana", Json.str "2024-01-01T00:00:00Z"⟩)).1
      (by intro h; cases h),
   (transform_total_and_deterministic (Json.str "2024-01-01T00:00:00Z")
      (Json.str "2025-06-15T12:00:00Z")
      (DomainEvent.userCreated sampleUsuarioEvent)).2.2.2.2.2 rfl⟩

/-- Claim C10: a payload whose usuarioId is a non-numeric string decodes
successfully on the usuarios, password_reset and password_updated queues
(whose models require a string usuarioId) but is rejected on the sesiones
queue (whose model requires an int); the sesiones queue accepts a JSON
integer usuarioId, and also a string usuarioId that is integer-coercible. -/
theorem sesiones_requires_int_usuario_id (s : String) (hs : strToIntOpt s = none) :
    decodeForQueue Queue.usuarios
      (some (Json.obj (basePayload (Json.str s)))) =
      Except.ok (DomainEvent.userCreated
        ⟨s, "a@b.com", "Ana", Json.str "2024-01-01T00:00:00Z", none, none⟩) ∧
    decodeForQueue Queue.password_reset
      (some (Json.obj (basePayload (Json.str s)))) =
      Except.ok (DomainEvent.passwordResetRequested
        ⟨s, "a@b.com", "Ana", "XYZ", Json.str "2024-01-01T00:00:00Z"⟩) ∧
    decodeForQueue Queue.password_updated
      (some (Json.obj (basePayload (Json.str s)))) =
      Except.ok (DomainEvent.passwordUpdated
        ⟨s, "a@b.com", "Ana", Json.str "2024-01-01T00:00:00Z"⟩) ∧
    decodeForQueue Queue.sesiones
      (some (Json.obj (basePayload (Json.str s)))) = Except.error () ∧
    (∀ n : Int, decodeForQueue Queue.sesiones
      (some (Json.obj (basePayload (Json.num n)))) =
      Except.ok (DomainEvent.sessionStarted
        ⟨n, "a@b.com", "Ana", Json.str "2024-01-01T00:00:00Z",
          none, none, none, none⟩)) ∧
    (∀ s' : String, ∀ n : Int, strToIntOpt s' = some n →
      decodeForQueue Queue.sesiones
        (some (Json.obj (basePayload (Json.str s')))) =
        Except.ok (DomainEvent.sessionStarted
          ⟨n, "a@b.com", "Ana", Json.str "2024-01-01T00:00:00Z",
            none, none, none, none⟩)) := by
  refine ⟨rfl, rfl, rfl, ?_, fun n => rfl, fun s' n hn => ?_⟩
  · simp [decodeForQueue, decodeBody, decodeSesionIniciada, basePayload,
      getAliased, reqIntLax, hs, Bind.bind, Except.bind, Except.map]
  · simp [decodeForQueue, decodeBody, decodeSesionIniciada, basePayload,
      getAliased, reqIntLax, hn, Bind.bind, Except.bind, Except.map,
      reqStr, reqDatetime, optStr, List.lookup]

/-- Witness for C10: the non-numeric usuarioId "abc" decodes on the three
string-id queues and is rejected on sesiones; the numeric string "42"
decodes on sesiones to the int 42. -/
theorem sesiones_requires_int_usuario_id_witness :
    decodeForQueue Queue.sesiones
      (some (Json.obj (basePayload (Json.str "abc")))) = Except.error () ∧
    decodeForQueue Queue.usuarios
      (some (Json.obj (basePayload (Json.str "abc")))) =
      Except.ok (DomainEvent.userCreated
        ⟨"abc", "a@b.com", "Ana", Json.str "2024-01-01T00:00:00Z", none, none⟩) ∧
    decodeForQueue Queue.sesiones
      (some (Json.obj (basePayload (Json.str "42")))) =
      Except.ok (DomainEvent.sessionStarted
        ⟨42, "a@b.com", "Ana", Json.str "2024-01-01T00:00:00Z",
          none, none, none, none⟩) :=
  ⟨(sesiones_requires_int_usuario_id "abc" (by decide)).2.2.2.1,
   (sesiones_requires_int_usuario_id "abc" (by decide)).1,
   (sesiones_requires_int_usuario_id "abc" (by decide)).2.2.2.2.2 "42" 42
     (by decide)⟩

/-- Helper for C6: if the first success among attempts 1..MAX_RETRIES is
attempt k, the retry loop stops at attempt k having slept WAIT_SECONDS
between each pair of consecutive attempts. -/
theorem connectLoop_first_success (outcomes : Nat → Bool) (k : Nat) :
    ∀ fuel attempt slept, attempt + fuel = MAX_RETRIES + 1 →
    attempt ≤ k → k ≤ MAX_RETRIES → outcomes k = true →
    (∀ j, attempt ≤ j → j < k → outcomes j = false) →
    connectLoop outcomes fuel attempt slept =
      ⟨k, slept + WAIT_SECONDS * (k - attempt), true⟩ := by
  intro fuel
  induction fuel with
  | zero =>
    intro attempt slept hf hak hk _ _
    simp [MAX_RETRIES] at hf hk
    omega
  | succ n ih =>
    intro attempt slept hf hak hk hout hfail
    by_cases heq : attempt = k
    · subst heq
      simp [connectLoop, hout]
    · have hlt : attempt < k := lt_of_le_of_ne hak heq
      have hne20 : attempt ≠ MAX_RETRIES := by
        simp [MAX_RETRIES] at hk ⊢
        omega
      have hfa : outcomes attempt = false := hfail attempt le_rfl hlt
      have hrec := ih (attempt + 1) (slept + WAIT_SECONDS) (by omega) (by omega)
        hk hout (fun j h1 h2 => hfail j (by omega) h2)
      have harith : slept + WAIT_SECONDS + WAIT_SECONDS * (k - (attempt + 1)) =
          slept + WAIT_SECONDS * (k - attempt) := by
        simp [WAIT_SECONDS]
        omega
      rw [harith] at hrec
      simp [connectLoop, hfa, hne20, hrec]

/-- Helper for C6: if every attempt from the current one through
MAX_RETRIES fails, the loop stops at attempt MAX_RETRIES and re-raises
(connected = false). -/
theorem connectLoop_all_fail (outcomes : Nat → Bool) :
    ∀ fuel attempt slept, attempt + fuel = MAX_RETRIES + 1 →
    (∀ j, attempt ≤ j → j ≤ MAX_RETRIES → outcomes j = false) →
    connectLoop outcomes fuel attempt slept =
      ⟨MAX_RETRIES, slept + WAIT_SECONDS * (MAX_RETRIES - attempt), false⟩ := by
  intro fuel
  induction fuel with
  | zero =>
    intro attempt slept hf _
    simp [MAX_RETRIES] at hf
    have ha : attempt = 21 := by omega
    subst ha
    simp [connectLoop, MAX_RETRIES, WAIT_SECONDS]
  | succ n ih =>
    intro attempt slept hf hfail
    have hale : attempt ≤ MAX_RETRIES := by omega
    have hfa : outcomes attempt = false := hfail attempt le_rfl hale
    by_cases heq : attempt = MAX_RETRIES
    · subst heq
      simp [connectLoop, hfa]
    · have hlt : attempt < MAX_RETRIES := lt_of_le_of_ne hale heq
      have hrec := ih (attempt + 1) (slept + WAIT_SECONDS) (by omega)
        (fun j h1 h2 => hfail j (by omega) h2)
      have harith : slept + WAIT_SECONDS +
          WAIT_SECONDS * (MAX_RETRIES - (attempt + 1)) =
          slept + WAIT_SECONDS * (MAX_RETRIES - attempt) := by
        simp only [WAIT_SECONDS, MAX_RETRIES] at hlt ⊢
        omega
      rw [harith] at hrec
      simp [connectLoop, hfa, heq, hrec]

/-- Claim C6: setup_connection (identical in the Connector and the
Publisher) makes at most MAX_RETRIES = 20 connection attempts with a fixed
WAIT_SECONDS = 3 second delay between consecutive attempts.  If every
attempt 1..20 fails, it stops after exactly 20 attempts (having slept
3 * 19 seconds) and re-raises fatally (connected = false, the process does
not proceed).  If the first success is attempt k with 1 <= k <= 20, it
returns normally after exactly k attempts and 3 * (k - 1) seconds of
delay. -/
theorem setup_connection_retry_bound (outcomes : Nat → Bool) :
    ((∀ j, 1 ≤ j → j ≤ MAX_RETRIES → outcomes j = false) →
      setup_connection outcomes =
        ⟨MAX_RETRIES, WAIT_SECONDS * (MAX_RETRIES - 1), false⟩) ∧
    (∀ k, 1 ≤ k → k ≤ MAX_RETRIES → outcomes k = true →
      (∀ j, 1 ≤ j → j < k → outcomes j = false) →
      setup_connection outcomes = ⟨k, WAIT_SECONDS * (k - 1), true⟩) := by
  constructor
  · intro hfail
    have := connectLoop_all_fail outcomes MAX_RETRIES 1 0 rfl hfail
    simpa [setup_connection] using this
  · intro k h1 hk hout hfail
    have := connectLoop_first_success outcomes k MAX_RETRIES 1 0 rfl h1 hk hout hfail
    simpa [setup_connection] using this

/-- Witness for C6: a broker that first accepts on attempt 3 yields a
connection after 3 attempts and 6 seconds of delay; a broker that never
accepts yields a fatal failure after exactly 20 attempts and 57 seconds of
delay. -/
theorem setup_connection_retry_bound_witness :
    setup_connection (fun n => decide (n = 3)) = ⟨3, 6, true⟩ ∧
    setup_connection (fun _ => false) = ⟨20, 57, false⟩ :=
  ⟨(setup_connection_retry_bound (fun n => decide (n = 3))).2 3 (by decide)
      (by decide) (by decide)
      (fun j h1 h2 => by
        simp only [decide_eq_false_iff_not]
        omega),
   (setup_connection_retry_bound (fun _ => false)).1 (fun j h1 h2 => rfl)⟩

/-- Claim C8: for every domain-event variant and every aliased field, a
payload supplying the field under its external alias and an otherwise
identical payload supplying it under the internal attribute name decode to
equal domain events (provided neither spelling also occurs in the rest of
the payload); and a payload extended with any unknown key decodes exactly
as the payload without it. -/
theorem alias_resolves_to_same_attribute (o : List (String × Json)) (v : Json) :
    (o.lookup "usuarioId" = none → o.lookup "usuario_id" = none →
      decodeUsuarioCreado (("usuarioId", v) :: o) =
        decodeUsuarioCreado (("usuario_id", v) :: o) ∧
      decodeSesionIniciada (("usuarioId", v) :: o) =
        decodeSesionIniciada (("usuario_id", v) :: o) ∧
      decodePasswordResetSolicitado (("usuarioId", v) :: o) =
        decodePasswordResetSolicitado (("usuario_id", v) :: o) ∧
      decodePasswordActualizado (("usuarioId", v) :: o) =
        decodePasswordActualizado (("usuario_id", v) :: o)) ∧
    (o.lookup "activationToken" = none → o.lookup "activation_token" = none →
      decodeUsuarioCreado (("activationToken", v) :: o) =
        decodeUsuarioCreado (("activation_token", v) :: o)) ∧
    (o.lookup "baseUrl" = none → o.lookup "base_url" = none →
      decodeUsuarioCreado (("baseUrl", v) :: o) =
        decodeUsuarioCreado (("base_url", v) :: o)) ∧
    (o.lookup "ipAddress" = none → o.lookup "ip_address" = none →
      decodeSesionIniciada (("ipAddress", v) :: o) =
        decodeSesionIniciada (("ip_address", v) :: o)) ∧
    (o.lookup "userAgent" = none → o.lookup "user_agent" = none →
      decodeSesionIniciada (("userAgent", v) :: o) =
        decodeSesionIniciada (("user_agent", v) :: o)) ∧
    (o.lookup "deviceInfo" = none → o.lookup "device_info" = none →
      decodeSesionIniciada (("deviceInfo", v) :: o) =
        decodeSesionIniciada (("device_info", v) :: o)) ∧
    (o.lookup "fechaSolicitud" = none → o.lookup "fecha_solicitud" = none →
      decodePasswordResetSolicitado (("fechaSolicitud", v) :: o) =
        decodePasswordResetSolicitado (("fecha_solicitud", v) :: o)) ∧
    (o.lookup "fechaActualizacion" = none → o.lookup "fecha_actualizacion" = none →
      decodePasswordActualizado (("fechaActualizacion", v) :: o) =
        decodePasswordActualizado (("fecha_actualizacion", v) :: o)) ∧
    (∀ k, k ∉ usuarioKeys →
      decodeUsuarioCreado ((k, v) :: o) = decodeUsuarioCreado o) ∧
    (∀ k, k ∉ sesionKeys →
      decodeSesionIniciada ((k, v) :: o) = decodeSesionIniciada o) ∧
    (∀ k, k ∉ passwordResetKeys →
      decodePasswordResetSolicitado ((k, v) :: o) =
        decodePasswordResetSolicitado o) ∧
    (∀ k, k ∉ passwordUpdatedKeys →
      decodePasswordActualizado ((k, v) :: o) = decodePasswordActualizado o) := by
  refine ⟨fun h1 h2 => ⟨?_, ?_, ?_, ?_⟩, fun h1 h2 => ?_, fun h1 h2 => ?_,
    fun h1 h2 => ?_, fun h1 h2 => ?_, fun h1 h2 => ?_, fun h1 h2 => ?_,
    fun h1 h2 => ?_, fun k hk => ?_, fun k hk => ?_, fun k hk => ?_,
    fun k hk => ?_⟩
  · simp [decodeUsuarioCreado, getAliased, lookup_cons_self, lookup_cons_ne, h1, h2]
  · simp [decodeSesionIniciada, getAliased, lookup_cons_self, lookup_cons_ne, h1, h2]
  · simp [decodePasswordResetSolicitado, getAliased, lookup_cons_self,
      lookup_cons_ne, h1, h2]
  · simp [decodePasswordActualizado, getAliased, lookup_cons_self,
      lookup_cons_ne, h1, h2]
  · simp [decodeUsuarioCreado, getAliased, lookup_cons_self, lookup_cons_ne, h1, h2]
  · simp [decodeUsuarioCreado, getAliased, lookup_cons_self, lookup_cons_ne, h1, h2]
  · simp [decodeSesionIniciada, getAliased, lookup_cons_self, lookup_cons_ne, h1, h2]
  · simp [decodeSesionIniciada, getAliased, lookup_cons_self, lookup_cons_ne, h1, h2]
  · simp [decodeSesionIniciada, getAliased, lookup_cons_self, lookup_cons_ne, h1, h2]
  · simp [decodePasswordResetSolicitado, getAliased, lookup_cons_self,
      lookup_cons_ne, h1, h2]
  · simp [decodePasswordActualizado, getAliased, lookup_cons_self,
      lookup_cons_ne, h1, h2]
  · simp only [usuarioKeys, List.mem_cons, List.not_mem_nil, not_or, or_false] at hk
    obtain ⟨n1, n2, n3, n4, n5, n6, n7, n8, n9⟩ := hk
    simp [decodeUsuarioCreado, getAliased,
      lookup_cons_ne (Ne.symm n1), lookup_cons_ne (Ne.symm n2),
      lookup_cons_ne (Ne.symm n3), lookup_cons_ne (Ne.symm n4),
      lookup_cons_ne (Ne.symm n5), lookup_cons_ne (Ne.symm n6),
      lookup_cons_ne (Ne.symm n7), lookup_cons_ne (Ne.symm n8),
      lookup_cons_ne (Ne.symm n9)]
  · simp only [sesionKeys, List.mem_cons, List.not_mem_nil, not_or, or_false] at hk
    obtain ⟨n1, n2, n3, n4, n5, n6, n7, n8, n9, n10, n11, n12⟩ := hk
    simp [decodeSesionIniciada, getAliased,
      lookup_cons_ne (Ne.symm n1), lookup_cons_ne (Ne.symm n2),
      lookup_cons_ne (Ne.symm n3), lookup_cons_ne (Ne.symm n4),
      lookup_cons_ne (Ne.symm n5), lookup_cons_ne (Ne.symm n6),
      lookup_cons_ne (Ne.symm n7), lookup_cons_ne (Ne.symm n8),
      lookup_cons_ne (Ne.symm n9), lookup_cons_ne (Ne.symm n10),
      lookup_cons_ne (Ne.symm n11), lookup_cons_ne (Ne.symm n12)]
  · simp only [passwordResetKeys, List.mem_cons, List.not_mem_nil, not_or,
      or_false] at hk
    obtain ⟨n1, n2, n3, n4, n5, n6, n7⟩ := hk
    simp [decodePasswordResetSolicitado, getAliased,
      lookup_cons_ne (Ne.symm n1), lookup_cons_ne (Ne.symm n2),
      lookup_cons_ne (Ne.symm n3), lookup_cons_ne (Ne.symm n4),
      lookup_cons_ne (Ne.symm n5), lookup_cons_ne (Ne.symm n6),
      lookup_cons_ne (Ne.symm n7)]
  · simp only [passwordUpdatedKeys, List.mem_cons, List.not_mem_nil, not_or,
      or_false] at hk
    obtain ⟨n1, n2, n3, n4, n5, n6⟩ := hk
    simp [decodePasswordActualizado, getAliased,
      lookup_cons_ne (Ne.symm n1), lookup_cons_ne (Ne.symm n2),
      lookup_cons_ne (Ne.symm n3), lookup_cons_ne (Ne.symm n4),
      lookup_cons_ne (Ne.symm n5), lookup_cons_ne (Ne.symm n6)]

/-- Witness for C8: usuarioId supplied under its alias and under its
internal name decode identically, and an unrecognised key is ignored. -/
theorem alias_resolves_to_same_attribute_witness :
    decodeUsuarioCreado [("usuarioId", Json.str "u9")] =
      decodeUsuarioCreado [("usuario_id", Json.str "u9")] ∧
    decodeUsuarioCreado [("extraField", Json.str "u9")] = decodeUsuarioCreado [] :=
  ⟨((alias_resolves_to_same_attribute [] (Json.str "u9")).1 rfl rfl).1,
   (alias_resolves_to_same_attribute [] (Json.str "u9")).2.2.2.2.2.2.2.2.1
     "extraField" (by decide)⟩
